import Mathlib

/-!
# Samsung MIPI DSIM glue for Exynos SoCs: attach/detach protocol and TE interrupt routing

A shallow embedding of `drivers/gpu/drm/exynos/exynos_drm_dsi.c` together with the
state constants of `include/drm/bridge/samsung-dsim.h`.

The C functions are embedded as state-passing functions on a `World`: the glue
object (`struct exynos_dsi`, with the controller context `struct samsung_dsim` it
points to), the DRM device fields the glue reads and writes, and the platform
resource layer the glue calls into.  Every call that leaves the file is appended to
a log, in program order, so that "which calls happen, how often and in which order"
is a statement about a list.
-/

namespace ExynosDsi

/-! ## Constants -/

/-- The kernel's `BIT(n)`. -/
def BIT (n : Nat) : Nat := 2 ^ n

/-- Conversion of an unsigned value to `u32`: the low 32 bits. -/
def u32 (n : Nat) : Nat := n % 2 ^ 32

/-- Macro `#define DSIM_STATE_ENABLED BIT(0)` -/
def DSIM_STATE_ENABLED : Nat := BIT 0
/-- Macro `#define DSIM_STATE_INITIALIZED BIT(1)` -/
def DSIM_STATE_INITIALIZED : Nat := BIT 1
/-- Macro `#define DSIM_STATE_CMD_LPM BIT(2)` -/
def DSIM_STATE_CMD_LPM : Nat := BIT 2
/-- Macro `#define DSIM_STATE_VIDOUT_AVAILABLE BIT(3)` -/
def DSIM_STATE_VIDOUT_AVAILABLE : Nat := BIT 3

/-- Modelled from the spec: the video-mode bit of a device's mode flags
(`MIPI_DSI_MODE_VIDEO`, declared in `include/drm/drm_mipi_dsi.h`, not under src/). -/
def MIPI_DSI_MODE_VIDEO : Nat := BIT 0

/-- Modelled from the spec: the "pulse acknowledged" return value of an interrupt
handler (`IRQ_HANDLED`, declared in `include/linux/irqreturn.h`, not under src/). -/
def IRQ_HANDLED : Int := 1

/-- Modelled from the spec: error number for an invalid argument (`EINVAL`). -/
def EINVAL : Int := 22
/-- Modelled from the spec: error number for a resource that is already taken (`EBUSY`). -/
def EBUSY : Int := 16
/-- Modelled from the spec: error number for a missing device (`ENODEV`). -/
def ENODEV : Int := 19
/-- Modelled from the spec: error number for exhausted memory (`ENOMEM`). -/
def ENOMEM : Int := 12
/-- Modelled from the spec: error number for a resource whose provider has not been
probed yet (`EPROBE_DEFER`). -/
def EPROBE_DEFER : Int := 517

/-! ## Data model -/

/-- A value of type `struct gpio_desc *`: the null pointer, an error pointer made by
`ERR_PTR(errno)`, or a pointer to the descriptor of line `id`. -/
inductive gpio_desc_ptr where
  | NULL
  | ERR_PTR (errno : Int)
  | line (id : Nat)
  deriving DecidableEq, Repr

/-- The test `IS_ERR(ptr)`: the pointer is an error pointer. -/
def IS_ERR : gpio_desc_ptr → Bool
  | .ERR_PTR _ => true
  | _ => false

/-- The value `PTR_ERR(ptr)`; only evaluated by the glue after `IS_ERR(ptr)`. -/
def PTR_ERR : gpio_desc_ptr → Int
  | .ERR_PTR e => e
  | _ => 0

/-- The C truth value of a pointer, as in `if (dsi->te_gpio)`. -/
def gpio_desc_ptr.nonnull : gpio_desc_ptr → Bool
  | .NULL => false
  | _ => true

/-- A call that leaves `exynos_drm_dsi.c`, with the arguments that matter here. -/
inductive Call where
  | drm_bridge_attach
  | devm_gpiod_get_optional
  | dev_err
  | gpiod_to_irq (desc : gpio_desc_ptr)
  | request_threaded_irq (irq : Int)
  | gpiod_put (desc : gpio_desc_ptr)
  | free_irq (irq : Int)
  | enable_irq (irq : Int)
  | disable_irq (irq : Int)
  | mutex_lock
  | mutex_unlock
  | drm_kms_helper_hotplug_event
  | exynos_drm_crtc_te_handler (crtc : Nat)
  deriving DecidableEq, Repr

/-- Modelled from the spec: the platform resource layer and the composition
pipeline the glue consumes (gpiolib, genirq and the DRM core; none of it is under
src/).  One named input line "te", the interrupt behind it, and the result the
bridge-attach primitive will report. -/
structure Platform where
  /-- the value `drm_bridge_attach` returns -/
  bridge_attach_ret : Int
  /-- the descriptor of the line named "te" in the device's resource set, if there
  is such a line -/
  te_line : Option Nat
  /-- a failure the lookup of the line will report (negative; none otherwise) -/
  lookup_fault : Int
  /-- the interrupt number behind the "te" line -/
  te_irq : Int
  /-- the "te" line is currently requested -/
  line_held : Bool
  /-- a failure `request_threaded_irq` will report (0 for none) -/
  irq_fault : Int
  /-- a handler is currently registered on the "te" interrupt -/
  irq_requested : Bool
  /-- nesting depth of disables of the "te" interrupt; delivered only at depth 0 -/
  irq_depth : Nat
  /-- number of kernel warnings raised so far (unbalanced enable, double free) -/
  warnings : Nat
  /-- every call made so far, oldest first -/
  log : List Call
  deriving DecidableEq, Repr

/-- The `struct drm_encoder` fields the glue reads: the CRTC bound to the encoder. -/
structure drm_encoder where
  crtc : Nat
  deriving DecidableEq, Repr

/-- The `struct samsung_dsim` fields the glue reads or writes.  `lanes`, `mode_flags`
and `format` are `u32` and `state` is an `int` used as a bit mask; the glue only
stores into them and tests single bits, so they are kept as natural numbers (the
bit pattern), and a store of a wider value goes through `u32`. -/
structure samsung_dsim where
  lanes : Nat
  mode_flags : Nat
  format : Nat
  state : Nat
  deriving DecidableEq, Repr

/-- The glue object, `struct exynos_dsi`; `priv` is the controller context it points to. -/
structure exynos_dsi where
  encoder : drm_encoder
  priv : samsung_dsim
  te_gpio : gpio_desc_ptr
  deriving DecidableEq, Repr

/-- The `struct drm_device` fields the glue reads or writes: `mode_config.poll_enabled`
and the `i80_mode` of the CRTC that `exynos_drm_crtc_get_by_type` finds for
`EXYNOS_DISPLAY_TYPE_LCD`; the attach dereferences the result of that lookup
unchecked, so such a CRTC is taken to exist. -/
structure drm_device where
  poll_enabled : Bool
  lcd_i80_mode : Bool
  deriving DecidableEq, Repr

/-- The `struct mipi_dsi_device` fields the glue reads (the structure is declared
in `include/drm/drm_mipi_dsi.h`, not under src/): `lanes` is an `unsigned int` and
`format` an enumeration, both no wider than the `u32` fields they are copied into;
`mode_flags` is an `unsigned long`, which is wider than `u32` on a 64-bit build, so
it is any natural number here. -/
structure mipi_dsi_device where
  lanes : Nat
  format : Nat
  mode_flags : Nat
  deriving DecidableEq, Repr

/-- Everything an operation of the glue can read or change. -/
structure World where
  dsi : exynos_dsi
  drm : drm_device
  kernel : Platform
  deriving DecidableEq, Repr

/-! ## The consumed primitives -/

/-- Append one call to the log. -/
def Platform.record (k : Platform) (c : Call) : Platform :=
  { k with log := k.log ++ [c] }

/-- Modelled from the spec: the bridge-attach primitive (`drm_bridge_attach`, DRM
core, not under src/); reports the platform's preset result. -/
def drm_bridge_attach (k : Platform) : Int × Platform :=
  (k.bridge_attach_ret, k.record .drm_bridge_attach)

/-- Modelled from the spec: acquisition of the optional named input line "te"
(`devm_gpiod_get_optional`, gpiolib, not under src/): an error pointer when the
lookup fails, `NULL` when there is no such line, an error pointer for `-EBUSY` when
the line is already held, else the line's descriptor, which is then held. -/
def devm_gpiod_get_optional (k : Platform) : gpio_desc_ptr × Platform :=
  let k1 := k.record .devm_gpiod_get_optional
  if k.lookup_fault < 0 then (.ERR_PTR k.lookup_fault, k1)
  else
    match k.te_line with
    | none => (.NULL, k1)
    | some id =>
      if k.line_held then (.ERR_PTR (-EBUSY), k1)
      else (.line id, { k1 with line_held := true })

/-- Modelled from the spec: the interrupt number of a line (`gpiod_to_irq`, gpiolib,
not under src/); `-EINVAL` for a pointer that is null, an error pointer, or not the
descriptor of the "te" line. -/
def gpiod_to_irq (desc : gpio_desc_ptr) (k : Platform) : Int × Platform :=
  let k1 := k.record (.gpiod_to_irq desc)
  match desc with
  | .line id => if k.te_line = some id then (k.te_irq, k1) else (-EINVAL, k1)
  | _ => (-EINVAL, k1)

/-- Modelled from the spec: threaded-interrupt registration with
`IRQF_TRIGGER_RISING | IRQF_NO_AUTOEN` (`request_threaded_irq`, genirq, not under
src/): `-EINVAL` for a number that is no interrupt, the preset fault if any,
`-EBUSY` when a handler is already registered, else the handler is registered and
the interrupt starts disabled, at depth 1. -/
def request_threaded_irq (irq : Int) (k : Platform) : Int × Platform :=
  let k1 := k.record (.request_threaded_irq irq)
  if irq < 0 ∨ irq ≠ k.te_irq then (-EINVAL, k1)
  else if k.irq_fault ≠ 0 then (k.irq_fault, k1)
  else if k.irq_requested then (-EBUSY, k1)
  else (0, { k1 with irq_requested := true, irq_depth := 1 })

/-- Modelled from the spec: release of a registered interrupt (`free_irq`, genirq,
not under src/); freeing an interrupt that has no handler raises a warning. -/
def free_irq (irq : Int) (k : Platform) : Platform :=
  let k1 := k.record (.free_irq irq)
  if 0 ≤ irq ∧ irq = k.te_irq ∧ k.irq_requested then { k1 with irq_requested := false }
  else { k1 with warnings := k1.warnings + 1 }

/-- Modelled from the spec: release of a line (`gpiod_put`, gpiolib, not under src/);
a null pointer is ignored, releasing a line that is not held raises a warning. -/
def gpiod_put (desc : gpio_desc_ptr) (k : Platform) : Platform :=
  let k1 := k.record (.gpiod_put desc)
  match desc with
  | .NULL => k1
  | .ERR_PTR _ => { k1 with warnings := k1.warnings + 1 }
  | .line id =>
    if k.te_line = some id ∧ k.line_held then { k1 with line_held := false }
    else { k1 with warnings := k1.warnings + 1 }

/-- Modelled from the spec: enable of a registered interrupt by hardware identifier
(`enable_irq`, genirq, not under src/).  The specification names the primitive
only; its behaviour here is the interrupt core's: enables and disables nest, each
enable undoes one disable, and an enable at depth 0 changes nothing and raises the
"unbalanced enable" warning. -/
def enable_irq (irq : Int) (k : Platform) : Platform :=
  let k1 := k.record (.enable_irq irq)
  if 0 ≤ irq ∧ irq = k.te_irq then
    match k.irq_depth with
    | 0 => { k1 with warnings := k1.warnings + 1 }
    | d + 1 => { k1 with irq_depth := d }
  else k1

/-- Modelled from the spec: disable of a registered interrupt by hardware identifier
(`disable_irq`, genirq, not under src/).  The specification names the primitive
only; its behaviour here is the interrupt core's: each call deepens the nesting by
one. -/
def disable_irq (irq : Int) (k : Platform) : Platform :=
  let k1 := k.record (.disable_irq irq)
  if 0 ≤ irq ∧ irq = k.te_irq then { k1 with irq_depth := k.irq_depth + 1 }
  else k1

/-- The interrupt-armed state: a handler is registered on the "te" interrupt and no
disable is outstanding, so a pulse on the line is delivered. -/
def Platform.armed (k : Platform) : Bool :=
  k.irq_requested && k.irq_depth == 0

/-! ## The glue, `exynos_drm_dsi.c` -/

/-- Function `static void exynos_dsi_enable_irq(struct samsung_dsim *priv)` -/
def exynos_dsi_enable_irq (w : World) : World :=
  if w.dsi.te_gpio.nonnull then
    let r := gpiod_to_irq w.dsi.te_gpio w.kernel
    { w with kernel := enable_irq r.1 r.2 }
  else w

/-- Function `static void exynos_dsi_disable_irq(struct samsung_dsim *priv)` -/
def exynos_dsi_disable_irq (w : World) : World :=
  if w.dsi.te_gpio.nonnull then
    let r := gpiod_to_irq w.dsi.te_gpio w.kernel
    { w with kernel := disable_irq r.1 r.2 }
  else w

/-- Function `static irqreturn_t exynos_dsi_te_irq_handler(int irq, void *dev_id)`; the glue
is `dev_id`. -/
def exynos_dsi_te_irq_handler (_irq : Int) (w : World) : Int × World :=
  let priv := w.dsi.priv
  let encoder := w.dsi.encoder
  if priv.state &&& DSIM_STATE_VIDOUT_AVAILABLE ≠ 0 then
    (IRQ_HANDLED, { w with kernel := w.kernel.record (.exynos_drm_crtc_te_handler encoder.crtc) })
  else
    (IRQ_HANDLED, w)

/-- Function `static int exynos_dsi_register_te_irq(struct exynos_dsi *dsi, struct device *panel)` -/
def exynos_dsi_register_te_irq (w : World) : Int × World :=
  let g := devm_gpiod_get_optional w.kernel
  let dsi := { w.dsi with te_gpio := g.1 }
  if IS_ERR dsi.te_gpio then
    (PTR_ERR dsi.te_gpio, { w with dsi := dsi, kernel := g.2.record .dev_err })
  else
    let te_gpio_irq := gpiod_to_irq dsi.te_gpio g.2
    let ret := request_threaded_irq te_gpio_irq.1 te_gpio_irq.2
    if ret.1 ≠ 0 then
      (ret.1, { w with dsi := dsi, kernel := gpiod_put dsi.te_gpio (ret.2.record .dev_err) })
    else
      (0, { w with dsi := dsi, kernel := ret.2 })

/-- Function `static void exynos_dsi_unregister_te_irq(struct exynos_dsi *dsi)` -/
def exynos_dsi_unregister_te_irq (w : World) : World :=
  if w.dsi.te_gpio.nonnull then
    let r := gpiod_to_irq w.dsi.te_gpio w.kernel
    { w with kernel := gpiod_put w.dsi.te_gpio (free_irq r.1 r.2) }
  else w

/-- Function `static int exynos_dsi_host_attach(struct samsung_dsim *priv, struct mipi_dsi_device *device)`.
The value of `drm_bridge_attach` is not looked at.  `ret` is only assigned and
tested on the command-mode path; the video-mode path goes straight on.  The store
`priv->mode_flags = device->mode_flags` narrows an `unsigned long` to the `u32`
field, and `i80_mode` is computed from the stored field. -/
def exynos_dsi_host_attach (device : mipi_dsi_device) (w : World) : Int × World :=
  let b := drm_bridge_attach w.kernel
  let w1 := { w with kernel := b.2 }
  let r := if device.mode_flags &&& MIPI_DSI_MODE_VIDEO = 0 then
      exynos_dsi_register_te_irq w1
    else (0, w1)
  if r.1 ≠ 0 then r
  else
    let w2 := r.2
    let k1 := w2.kernel.record .mutex_lock
    let priv := { w2.dsi.priv with
      lanes := device.lanes, format := device.format,
      mode_flags := u32 device.mode_flags }
    let drm := { w2.drm with lcd_i80_mode := (priv.mode_flags &&& MIPI_DSI_MODE_VIDEO == 0) }
    let k2 := k1.record .mutex_unlock
    let k3 := if drm.poll_enabled then k2.record .drm_kms_helper_hotplug_event else k2
    (0, { dsi := { w2.dsi with priv := priv }, drm := drm, kernel := k3 })

/-- Function `static int exynos_dsi_host_detach(struct samsung_dsim *priv, struct mipi_dsi_device *device)` -/
def exynos_dsi_host_detach (_device : mipi_dsi_device) (w : World) : Int × World :=
  let w1 := if w.drm.poll_enabled then
      { w with kernel := w.kernel.record .drm_kms_helper_hotplug_event }
    else w
  (0, exynos_dsi_unregister_te_irq w1)

/-- The glue object as `samsung_dsim_plat_probe` sets it up: `devm_kzalloc`
zero-fills it (so `te_gpio` is the null pointer and the encoder has no CRTC yet) and
`dsi->priv = priv`. -/
def probed_glue (priv : samsung_dsim) : exynos_dsi :=
  { encoder := { crtc := 0 }, priv := priv, te_gpio := .NULL }

/-! ## Observations used by the statements -/

/-- The calls made between an earlier and a later state of the platform. -/
def calls_between (before after : Platform) : List Call :=
  after.log.drop before.log.length

/-- A call that operates on the "te" line or on its interrupt. -/
def Call.te_resource_op : Call → Bool
  | .devm_gpiod_get_optional => true
  | .gpiod_to_irq _ => true
  | .request_threaded_irq _ => true
  | .gpiod_put _ => true
  | .free_irq _ => true
  | .enable_irq _ => true
  | .disable_irq _ => true
  | _ => false

/-- A call of `free_irq`, on whatever interrupt. -/
def Call.is_free_irq : Call → Bool
  | .free_irq _ => true
  | _ => false

/-- A call of `gpiod_put`, on whatever pointer. -/
def Call.is_gpiod_put : Call → Bool
  | .gpiod_put _ => true
  | _ => false

/-- Modelled from the spec: the pixel format RGB888 (`MIPI_DSI_FMT_RGB888`, the
first enumerator of `enum mipi_dsi_pixel_format`, not under src/). -/
def MIPI_DSI_FMT_RGB888 : Nat := 0

/-- A platform on which nothing has happened yet: the device's resource set has
the "te" line `te` (or none), the interrupt behind it is number 42, no failure is
preset, nothing is held or registered. -/
def idle_platform (te : Option Nat) : Platform :=
  { bridge_attach_ret := 0, te_line := te, lookup_fault := 0, te_irq := 42,
    line_held := false, irq_fault := 0, irq_requested := false, irq_depth := 0,
    warnings := 0, log := [] }

/-- A freshly probed glue on a platform, hotplug polling as given. -/
def probed_world (k : Platform) (poll : Bool) : World :=
  { dsi := probed_glue { lanes := 0, mode_flags := 0, format := 0, state := 0 },
    drm := { poll_enabled := poll, lcd_i80_mode := false },
    kernel := k }

/-- A command-mode panel: four lanes, RGB888, video-mode bit absent. -/
def command_mode_panel : mipi_dsi_device :=
  { lanes := 4, format := MIPI_DSI_FMT_RGB888, mode_flags := 0 }

/-- A video-mode panel: four lanes, RGB888, video-mode bit set. -/
def video_mode_panel : mipi_dsi_device :=
  { lanes := 4, format := MIPI_DSI_FMT_RGB888, mode_flags := MIPI_DSI_MODE_VIDEO }

/-- A command-mode panel whose mode flags have bit 32 set, a value an
`unsigned long` holds on a 64-bit build and a `u32` does not. -/
def wide_flags_panel : mipi_dsi_device :=
  { lanes := 4, format := MIPI_DSI_FMT_RGB888, mode_flags := 2 ^ 32 }

/-- A freshly probed glue with hotplug polling on, on a platform whose
bridge-attach primitive fails with `-ENODEV`. -/
def bridge_failing_world : World :=
  probed_world { idle_platform (some 7) with bridge_attach_ret := -ENODEV } true

/-- A freshly probed glue with hotplug polling on, on a platform whose device has
no "te" line. -/
def no_te_line_world : World := probed_world (idle_platform none) true

/-- A freshly probed glue with hotplug polling on, on a platform that has the "te"
line but fails the interrupt request with `-ENOMEM`. -/
def irq_failing_world : World :=
  probed_world { idle_platform (some 7) with irq_fault := -ENOMEM } true

/-- A freshly probed glue with hotplug polling on, on a platform whose lookup of the
"te" line fails with `-EPROBE_DEFER`. -/
def lookup_failing_world : World :=
  probed_world { idle_platform (some 7) with lookup_fault := -EPROBE_DEFER } true

/-- A freshly probed glue with hotplug polling on, on a platform that has the "te"
line (descriptor 7, interrupt 42) and presets no failure. -/
def te_line_world : World := probed_world (idle_platform (some 7)) true

/-- A glue on the platform of `te_line_world` whose controller was configured
before: one lane, another format, video mode, state flags `ENABLED`, `INITIALIZED`
and `VIDOUT_AVAILABLE` set, and the LCD CRTC in `i80_mode`. -/
def configured_world : World :=
  { dsi := probed_glue
      { lanes := 1, mode_flags := MIPI_DSI_MODE_VIDEO, format := 3,
        state := DSIM_STATE_ENABLED + DSIM_STATE_INITIALIZED + DSIM_STATE_VIDOUT_AVAILABLE },
    drm := { poll_enabled := true, lcd_i80_mode := true },
    kernel := idle_platform (some 7) }

/-- The state after a command-mode attach on `te_line_world` followed by one call of
the enable hook: the "te" interrupt is registered and armed. -/
def armed_world : World :=
  exynos_dsi_enable_irq (exynos_dsi_host_attach command_mode_panel te_line_world).2

/-- The "te" line `id` can be acquired and its interrupt registered: no failure is
preset, the line exists and is free, its interrupt number is valid and has no handler. -/
def Platform.te_available (k : Platform) (id : Nat) : Prop :=
  ¬ k.lookup_fault < 0 ∧ k.te_line = some id ∧ k.line_held = false ∧
  0 ≤ k.te_irq ∧ k.irq_fault = 0 ∧ k.irq_requested = false

/-- The state a successful command-mode attach leaves: the device's parameters
copied, `i80_mode` set, line `id` held in `te_gpio`, its interrupt registered and
disabled, and the calls of the attach logged. -/
def command_attached (device : mipi_dsi_device) (w : World) (id : Nat) : World :=
  { dsi := { w.dsi with
      priv := { w.dsi.priv with
        lanes := device.lanes, format := device.format,
        mode_flags := u32 device.mode_flags },
      te_gpio := .line id },
    drm := { w.drm with lcd_i80_mode := true },
    kernel := { w.kernel with
      line_held := true, irq_requested := true, irq_depth := 1,
      log := w.kernel.log ++
        ([Call.drm_bridge_attach, Call.devm_gpiod_get_optional,
          Call.gpiod_to_irq (.line id), Call.request_threaded_irq w.kernel.te_irq,
          Call.mutex_lock, Call.mutex_unlock] ++
        if w.drm.poll_enabled = true then [Call.drm_kms_helper_hotplug_event] else []) } }

/-- The state a detach leaves when `te_gpio` holds the held line `id`: the line
released, the handler freed, and the calls of the detach logged; `te_gpio` is not
written. -/
def line_detached (w : World) (id : Nat) : World :=
  { w with kernel := { w.kernel with
      line_held := false, irq_requested := false,
      log := w.kernel.log ++
        ((if w.drm.poll_enabled = true then [Call.drm_kms_helper_hotplug_event] else []) ++
          [Call.gpiod_to_irq (.line id), Call.free_irq w.kernel.te_irq,
            Call.gpiod_put (.line id)]) } }

/-! ## Helper lemmas -/

/-- The calls between two platform states whose logs differ by a suffix are that suffix. -/
theorem calls_between_append (k k2 : Platform) (cs : List Call)
    (h : k2.log = k.log ++ cs) : calls_between k k2 = cs := by
  simp [calls_between, h]

/-- Masking with `BIT i` is non-zero exactly when bit `i` is set. -/
theorem land_bit_ne_zero_iff (n i : Nat) : n &&& BIT i ≠ 0 ↔ n.testBit i = true := by
  unfold BIT
  rw [Nat.and_two_pow]
  cases n.testBit i <;> simp

/-- Narrowing to `u32` keeps the video-mode bit. -/
theorem u32_land_mode_video (m : Nat) :
    u32 m &&& MIPI_DSI_MODE_VIDEO = m &&& MIPI_DSI_MODE_VIDEO := by
  unfold u32 MIPI_DSI_MODE_VIDEO BIT
  rw [Nat.and_two_pow, Nat.and_two_pow, Nat.testBit_mod_two_pow]
  simp

/-- The first call of `exynos_dsi_register_te_irq` is the lookup of the "te" line. -/
theorem register_te_irq_log (w : World) :
    ∃ cs, (exynos_dsi_register_te_irq w).2.kernel.log =
      w.kernel.log ++ Call.devm_gpiod_get_optional :: cs := by
  unfold exynos_dsi_register_te_irq devm_gpiod_get_optional
  by_cases hf : w.kernel.lookup_fault < 0
  · simp [hf, IS_ERR, Platform.record]
  · cases h : w.kernel.te_line with
    | none =>
      simp [hf, IS_ERR, gpiod_to_irq, request_threaded_irq, gpiod_put, Platform.record, EINVAL]
    | some id =>
      by_cases hh : w.kernel.line_held = true
      · simp [hf, hh, IS_ERR, Platform.record]
      · simp only [hf, hh, IS_ERR, gpiod_to_irq, request_threaded_irq, gpiod_put,
          Platform.record, h]
        simp
        split_ifs <;> simp

/-- When the "te" line is available, `exynos_dsi_register_te_irq` returns 0 holding it. -/
theorem register_te_irq_success (w : World) (id : Nat) (h : w.kernel.te_available id) :
    exynos_dsi_register_te_irq w =
      (0, { w with
        dsi := { w.dsi with te_gpio := .line id },
        kernel := { w.kernel with
          line_held := true, irq_requested := true, irq_depth := 1,
          log := w.kernel.log ++ [Call.devm_gpiod_get_optional, Call.gpiod_to_irq (.line id),
            Call.request_threaded_irq w.kernel.te_irq] } }) := by
  obtain ⟨h1, h2, h3, h4, h5, h6⟩ := h
  unfold exynos_dsi_register_te_irq devm_gpiod_get_optional
  simp [h1, h2, h3, h4, h5, h6, IS_ERR, gpiod_to_irq, request_threaded_irq, Platform.record,
    not_lt.2 h4]

/-- A return value 0 of `exynos_dsi_register_te_irq` means the "te" line was available. -/
theorem register_te_irq_zero (w : World) (h : (exynos_dsi_register_te_irq w).1 = 0) :
    ∃ id, w.kernel.te_available id := by
  unfold exynos_dsi_register_te_irq devm_gpiod_get_optional at h
  by_cases hf : w.kernel.lookup_fault < 0
  · simp [hf, IS_ERR, PTR_ERR] at h
    omega
  · cases hl : w.kernel.te_line with
    | none =>
      simp [hf, hl, IS_ERR, gpiod_to_irq, request_threaded_irq, Platform.record, EINVAL] at h
    | some id =>
      by_cases hh : w.kernel.line_held = true
      · simp [hf, hl, hh, IS_ERR, PTR_ERR, EBUSY] at h
      · refine ⟨id, hf, hl, by simpa using hh, ?_⟩
        simp only [hf, hl, hh, IS_ERR, gpiod_to_irq, request_threaded_irq, Platform.record] at h
        simp at h
        split_ifs at h with c1 c2 c3 <;> simp_all [EINVAL, EBUSY]

/-- A failing `exynos_dsi_register_te_irq` leaves the controller context, the DRM
fields and the platform's line and handler bookkeeping as they were, and makes no
hotplug call. -/
theorem register_te_irq_failure_frame (w : World)
    (hf : (exynos_dsi_register_te_irq w).1 ≠ 0) :
    (exynos_dsi_register_te_irq w).2.dsi.priv = w.dsi.priv ∧
    (exynos_dsi_register_te_irq w).2.drm = w.drm ∧
    (exynos_dsi_register_te_irq w).2.kernel.line_held = w.kernel.line_held ∧
    (exynos_dsi_register_te_irq w).2.kernel.irq_requested = w.kernel.irq_requested ∧
    (∃ cs, (exynos_dsi_register_te_irq w).2.kernel.log = w.kernel.log ++ cs ∧
      Call.drm_kms_helper_hotplug_event ∉ cs) := by
  unfold exynos_dsi_register_te_irq devm_gpiod_get_optional at hf ⊢
  by_cases hl : w.kernel.lookup_fault < 0
  · simp [hl, IS_ERR, Platform.record]
  · cases ht : w.kernel.te_line with
    | none =>
      simp [hl, IS_ERR, gpiod_to_irq, request_threaded_irq, gpiod_put, Platform.record, EINVAL]
    | some id =>
      by_cases hh : w.kernel.line_held = true
      · simp [hl, hh, IS_ERR, Platform.record]
      · simp only [hl, ht, hh, IS_ERR, gpiod_to_irq, request_threaded_irq, gpiod_put,
          Platform.record] at hf ⊢
        simp at hf ⊢
        split_ifs at hf ⊢ <;> simp_all

/-- The attach of a video-mode device, in closed form. -/
theorem host_attach_video (device : mipi_dsi_device) (w : World)
    (hv : device.mode_flags &&& MIPI_DSI_MODE_VIDEO ≠ 0) :
    exynos_dsi_host_attach device w =
      (0, { dsi := { w.dsi with priv := { w.dsi.priv with
              lanes := device.lanes, format := device.format,
              mode_flags := u32 device.mode_flags } },
            drm := { w.drm with lcd_i80_mode := false },
            kernel := { w.kernel with log := w.kernel.log ++
              ([Call.drm_bridge_attach, Call.mutex_lock, Call.mutex_unlock] ++
                if w.drm.poll_enabled = true then [Call.drm_kms_helper_hotplug_event]
                else []) } }) := by
  unfold exynos_dsi_host_attach
  simp only [hv, if_false, drm_bridge_attach, Platform.record, u32_land_mode_video]
  by_cases hp : w.drm.poll_enabled = true <;> simp [hp, hv]

/-- A command-mode attach whose TE registration fails returns what the registration returned. -/
theorem host_attach_command_failure (device : mipi_dsi_device) (w : World)
    (hc : device.mode_flags &&& MIPI_DSI_MODE_VIDEO = 0)
    (hf : (exynos_dsi_register_te_irq
      { w with kernel := w.kernel.record .drm_bridge_attach }).1 ≠ 0) :
    exynos_dsi_host_attach device w =
      exynos_dsi_register_te_irq { w with kernel := w.kernel.record .drm_bridge_attach } := by
  unfold exynos_dsi_host_attach
  simp only [hc, if_true, drm_bridge_attach]
  rw [if_pos hf]

/-- A command-mode attach with the "te" line available, in closed form. -/
theorem host_attach_command_success (device : mipi_dsi_device) (w : World) (id : Nat)
    (hc : device.mode_flags &&& MIPI_DSI_MODE_VIDEO = 0)
    (ha : w.kernel.te_available id) :
    exynos_dsi_host_attach device w = (0, command_attached device w id) := by
  have ha1 : ({ w with kernel := w.kernel.record .drm_bridge_attach } : World).kernel.te_available
      id := ha
  have hr := register_te_irq_success _ id ha1
  unfold exynos_dsi_host_attach command_attached
  simp only [hc, if_true, drm_bridge_attach, u32_land_mode_video]
  rw [hr]
  by_cases hp : w.drm.poll_enabled = true <;> simp [hp, hc, Platform.record]

/-- A command-mode attach that returns 0 found the "te" line available. -/
theorem host_attach_command_zero (device : mipi_dsi_device) (w : World)
    (hc : device.mode_flags &&& MIPI_DSI_MODE_VIDEO = 0)
    (hok : (exynos_dsi_host_attach device w).1 = 0) :
    ∃ id, w.kernel.te_available id := by
  by_cases hf : (exynos_dsi_register_te_irq
      { w with kernel := w.kernel.record .drm_bridge_attach }).1 = 0
  · exact register_te_irq_zero { w with kernel := w.kernel.record .drm_bridge_attach } hf
  · rw [host_attach_command_failure device w hc hf] at hok
    exact absurd hok hf

/-- A command-mode attach starts with `drm_bridge_attach` and the lookup of the "te" line. -/
theorem host_attach_command_log (device : mipi_dsi_device) (w : World)
    (hc : device.mode_flags &&& MIPI_DSI_MODE_VIDEO = 0) :
    ∃ ds, (exynos_dsi_host_attach device w).2.kernel.log =
      w.kernel.log ++ Call.drm_bridge_attach :: Call.devm_gpiod_get_optional :: ds := by
  by_cases hf : (exynos_dsi_register_te_irq
      { w with kernel := w.kernel.record .drm_bridge_attach }).1 = 0
  · obtain ⟨id, ha⟩ :=
      register_te_irq_zero { w with kernel := w.kernel.record .drm_bridge_attach } hf
    rw [host_attach_command_success device w id hc ha]
    exact ⟨_, by simp [command_attached]; rfl⟩
  · rw [host_attach_command_failure device w hc hf]
    obtain ⟨cs, hcs⟩ :=
      register_te_irq_log { w with kernel := w.kernel.record .drm_bridge_attach }
    exact ⟨cs, by simpa [Platform.record] using hcs⟩

/-- Function `exynos_dsi_unregister_te_irq`, unfolded. -/
theorem unregister_te_irq_eq (w : World) :
    exynos_dsi_unregister_te_irq w =
      if w.dsi.te_gpio.nonnull = true then
        { w with kernel := (gpiod_put w.dsi.te_gpio
          (free_irq (gpiod_to_irq w.dsi.te_gpio w.kernel).1
            (gpiod_to_irq w.dsi.te_gpio w.kernel).2)) }
      else w := rfl

/-- The platform state after `gpiod_to_irq` differs by the logged call only. -/
theorem gpiod_to_irq_log (desc : gpio_desc_ptr) (k : Platform) :
    (gpiod_to_irq desc k).2 = k.record (.gpiod_to_irq desc) := by
  unfold gpiod_to_irq
  cases desc <;> simp
  split_ifs <;> rfl

/-- The log after `free_irq`. -/
theorem free_irq_log (irq : Int) (k : Platform) :
    (free_irq irq k).log = k.log ++ [Call.free_irq irq] := by
  unfold free_irq
  simp only [Platform.record]
  split_ifs <;> rfl

/-- The log after `gpiod_put`. -/
theorem gpiod_put_log (desc : gpio_desc_ptr) (k : Platform) :
    (gpiod_put desc k).log = k.log ++ [Call.gpiod_put desc] := by
  unfold gpiod_put
  simp only [Platform.record]
  cases desc <;> simp
  split_ifs <;> rfl

/-- The calls of `exynos_dsi_unregister_te_irq`. -/
theorem unregister_te_irq_log (w : World) :
    (exynos_dsi_unregister_te_irq w).kernel.log = w.kernel.log ++
      (if w.dsi.te_gpio.nonnull = true then
        [Call.gpiod_to_irq w.dsi.te_gpio, Call.free_irq (gpiod_to_irq w.dsi.te_gpio w.kernel).1,
          Call.gpiod_put w.dsi.te_gpio]
      else []) := by
  rw [unregister_te_irq_eq]
  by_cases h : w.dsi.te_gpio.nonnull = true
  · simp [h, gpiod_put_log, free_irq_log, gpiod_to_irq_log, Platform.record]
  · simp [h]

/-- The detach of a glue that holds the registered "te" line, in closed form. -/
theorem host_detach_bound_line (device : mipi_dsi_device) (w : World) (id : Nat)
    (hg : w.dsi.te_gpio = .line id) (hl : w.kernel.te_line = some id)
    (hi : 0 ≤ w.kernel.te_irq) (hh : w.kernel.line_held = true)
    (hr : w.kernel.irq_requested = true) :
    exynos_dsi_host_detach device w = (0, line_detached w id) := by
  unfold exynos_dsi_host_detach exynos_dsi_unregister_te_irq line_detached
  by_cases hp : w.drm.poll_enabled = true <;>
    simp [hp, hg, hl, hi, hh, hr, gpio_desc_ptr.nonnull, gpiod_to_irq, free_irq, gpiod_put,
      Platform.record]

/-! ## TE interrupt router -/

/-- C1: for every controller state and every TE pulse the handler returns
`IRQ_HANDLED`, leaves the glue, the controller context and the DRM device as they
were, and makes exactly one call, `exynos_drm_crtc_te_handler` on the CRTC of the
glue's own encoder, when bit 3 (`DSIM_STATE_VIDOUT_AVAILABLE`) of `priv->state` is
set and no call at all when it is clear, whatever the other bits of the state are. -/
theorem te_irq_handler_forwards_iff_vidout (irq : Int) (w : World) :
    (exynos_dsi_te_irq_handler irq w).1 = IRQ_HANDLED ∧
    (exynos_dsi_te_irq_handler irq w).2.dsi = w.dsi ∧
    (exynos_dsi_te_irq_handler irq w).2.drm = w.drm ∧
    (exynos_dsi_te_irq_handler irq w).2.kernel =
      { w.kernel with log := w.kernel.log ++
          (if w.dsi.priv.state.testBit 3 = true
            then [Call.exynos_drm_crtc_te_handler w.dsi.encoder.crtc] else []) } := by
  unfold exynos_dsi_te_irq_handler DSIM_STATE_VIDOUT_AVAILABLE
  by_cases h : w.dsi.priv.state.testBit 3 = true
  · have h2 : w.dsi.priv.state &&& BIT 3 ≠ 0 := (land_bit_ne_zero_iff _ _).2 h
    simp [h, h2, Platform.record]
  · have h2 : ¬ (w.dsi.priv.state &&& BIT 3 ≠ 0) := fun c => h ((land_bit_ne_zero_iff _ _).1 c)
    simp [h, h2]

/-! ## Attach -/

/-- C2: for every device and every state, `exynos_dsi_host_attach` looks up the
"te" line (the first step of `exynos_dsi_register_te_irq`) if and only if the
`MIPI_DSI_MODE_VIDEO` bit is absent from the device's mode flags; every call that
touches the line or its interrupt during an attach belongs to a device without the
video-mode bit, and the attach of a device with the bit leaves `te_gpio` as it was. -/
theorem host_attach_te_acquisition_iff_command_mode (device : mipi_dsi_device) (w : World) :
    (Call.devm_gpiod_get_optional ∈
        calls_between w.kernel (exynos_dsi_host_attach device w).2.kernel ↔
      device.mode_flags &&& MIPI_DSI_MODE_VIDEO = 0) ∧
    (∀ c ∈ calls_between w.kernel (exynos_dsi_host_attach device w).2.kernel,
      c.te_resource_op = true → device.mode_flags &&& MIPI_DSI_MODE_VIDEO = 0) ∧
    (device.mode_flags &&& MIPI_DSI_MODE_VIDEO ≠ 0 →
      (exynos_dsi_host_attach device w).2.dsi.te_gpio = w.dsi.te_gpio) := by
  by_cases hv : device.mode_flags &&& MIPI_DSI_MODE_VIDEO = 0
  · obtain ⟨ds, hds⟩ := host_attach_command_log device w hv
    rw [calls_between_append _ _ _ hds]
    simp [hv]
  · rw [host_attach_video device w hv]
    rw [calls_between_append _ _ _ rfl]
    refine ⟨?_, ?_, fun _ => rfl⟩
    · by_cases hp : w.drm.poll_enabled = true <;> simp [hp, hv]
    · intro c hc ht
      by_cases hp : w.drm.poll_enabled = true <;> simp [hp] at hc <;>
        rcases hc with rfl | rfl | rfl | rfl <;> simp [Call.te_resource_op] at ht

/-- C3 (counterexample): a command-mode device whose mode flags are `2 ^ 32` attaches
successfully on a glue whose "te" line exists, and the controller's mode flags are 0
afterwards, not the device's. -/
theorem host_attach_narrows_wide_mode_flags :
    (exynos_dsi_host_attach wide_flags_panel te_line_world).1 = 0 ∧
    (exynos_dsi_host_attach wide_flags_panel te_line_world).2.dsi.priv.mode_flags = 0 ∧
    (exynos_dsi_host_attach wide_flags_panel te_line_world).2.dsi.priv.mode_flags ≠
      wide_flags_panel.mode_flags := by
  decide

/-- C3 (amended): for every device and every state, when `exynos_dsi_host_attach`
returns 0 the controller's lanes and format equal the device's, the controller's
mode flags are the low 32 bits of the device's (and so equal the device's whenever
those fit in 32 bits), the LCD CRTC's `i80_mode` is true exactly when the device's
mode flags lack `MIPI_DSI_MODE_VIDEO`, and the controller's state bitmask is what it
was before the call. -/
theorem host_attach_success_copies_parameters (device : mipi_dsi_device) (w : World)
    (hok : (exynos_dsi_host_attach device w).1 = 0) :
    (exynos_dsi_host_attach device w).2.dsi.priv.lanes = device.lanes ∧
    (exynos_dsi_host_attach device w).2.dsi.priv.format = device.format ∧
    (exynos_dsi_host_attach device w).2.dsi.priv.mode_flags = device.mode_flags % 2 ^ 32 ∧
    (device.mode_flags < 2 ^ 32 →
      (exynos_dsi_host_attach device w).2.dsi.priv.mode_flags = device.mode_flags) ∧
    ((exynos_dsi_host_attach device w).2.drm.lcd_i80_mode = true ↔
      device.mode_flags &&& MIPI_DSI_MODE_VIDEO = 0) ∧
    (exynos_dsi_host_attach device w).2.dsi.priv.state = w.dsi.priv.state := by
  by_cases hv : device.mode_flags &&& MIPI_DSI_MODE_VIDEO = 0
  · obtain ⟨id, ha⟩ := host_attach_command_zero device w hv hok
    rw [host_attach_command_success device w id hv ha]
    refine ⟨rfl, rfl, rfl, fun hlt => Nat.mod_eq_of_lt hlt, ?_, rfl⟩
    simp [hv, command_attached]
  · rw [host_attach_video device w hv]
    refine ⟨rfl, rfl, rfl, fun hlt => Nat.mod_eq_of_lt hlt, ?_, rfl⟩
    simp [hv]

/-- Witness for C3 (amended), on a glue that was configured before (one lane, video
mode, `i80_mode` set, three state flags set): a command-mode device with four lanes
and RGB888 yields lanes 4, RGB888, mode flags 0, `i80_mode` true and the state flags
as before; a video-mode device yields its own mode flags and `i80_mode` false. -/
theorem host_attach_success_copies_parameters_witness :
    ((exynos_dsi_host_attach command_mode_panel configured_world).1 = 0 ∧
      (exynos_dsi_host_attach command_mode_panel configured_world).2.dsi.priv.lanes = 4 ∧
      (exynos_dsi_host_attach command_mode_panel configured_world).2.dsi.priv.format
        = MIPI_DSI_FMT_RGB888 ∧
      (exynos_dsi_host_attach command_mode_panel configured_world).2.dsi.priv.mode_flags
        = 0 ∧
      (exynos_dsi_host_attach command_mode_panel configured_world).2.drm.lcd_i80_mode
        = true ∧
      (exynos_dsi_host_attach command_mode_panel configured_world).2.dsi.priv.state
        = 11) ∧
    ((exynos_dsi_host_attach video_mode_panel configured_world).1 = 0 ∧
      (exynos_dsi_host_attach video_mode_panel configured_world).2.dsi.priv.mode_flags
        = MIPI_DSI_MODE_VIDEO ∧
      (exynos_dsi_host_attach video_mode_panel configured_world).2.drm.lcd_i80_mode
        = false) :=
  ⟨⟨by decide,
    (host_attach_success_copies_parameters command_mode_panel
        configured_world (by decide)).1,
    (host_attach_success_copies_parameters command_mode_panel
        configured_world (by decide)).2.1,
    (host_attach_success_copies_parameters command_mode_panel
        configured_world (by decide)).2.2.2.1 (by decide),
    (host_attach_success_copies_parameters command_mode_panel
        configured_world (by decide)).2.2.2.2.1.2 (by decide),
    (host_attach_success_copies_parameters command_mode_panel
        configured_world (by decide)).2.2.2.2.2.trans (by decide)⟩,
   by decide,
   (host_attach_success_copies_parameters video_mode_panel
        configured_world (by decide)).2.2.2.1 (by decide),
   Bool.eq_false_iff.2 (fun hb =>
    absurd ((host_attach_success_copies_parameters video_mode_panel
        configured_world (by decide)).2.2.2.2.1.1 hb) (by decide))⟩

/-! ## Attach: failure paths -/

/-- C4 (the code at the failing input): on a platform whose `drm_bridge_attach`
reports `-ENODEV`, `exynos_dsi_host_attach` still returns 0 and runs every later
step: for a video-mode device it writes the negotiated parameters and emits the
hotplug notification, for a command-mode device it also acquires the "te" line and
requests its interrupt. -/
theorem host_attach_ignores_bridge_attach_failure :
    (drm_bridge_attach bridge_failing_world.kernel).1 = -ENODEV ∧
    (exynos_dsi_host_attach video_mode_panel bridge_failing_world).1 = 0 ∧
    (exynos_dsi_host_attach video_mode_panel bridge_failing_world).2.dsi.priv.lanes = 4 ∧
    (exynos_dsi_host_attach video_mode_panel bridge_failing_world).2.dsi.priv.mode_flags
      = MIPI_DSI_MODE_VIDEO ∧
    calls_between bridge_failing_world.kernel
        (exynos_dsi_host_attach video_mode_panel bridge_failing_world).2.kernel =
      [Call.drm_bridge_attach, Call.mutex_lock, Call.mutex_unlock,
        Call.drm_kms_helper_hotplug_event] ∧
    (exynos_dsi_host_attach command_mode_panel bridge_failing_world).1 = 0 ∧
    (exynos_dsi_host_attach command_mode_panel bridge_failing_world).2.drm.lcd_i80_mode = true ∧
    calls_between bridge_failing_world.kernel
        (exynos_dsi_host_attach command_mode_panel bridge_failing_world).2.kernel =
      [Call.drm_bridge_attach, Call.devm_gpiod_get_optional, Call.gpiod_to_irq (.line 7),
        Call.request_threaded_irq 42, Call.mutex_lock, Call.mutex_unlock,
        Call.drm_kms_helper_hotplug_event] := by
  decide

/-- C5 (the code at the failing input): for a command-mode device whose "te" line
is absent (the optional lookup returns `NULL`), `exynos_dsi_host_attach` goes on to
`gpiod_to_irq(NULL)` and `request_threaded_irq` on the resulting `-EINVAL`, and
returns `-EINVAL`; the negotiated parameters and `i80_mode` are not written. -/
theorem host_attach_fails_without_te_line :
    (devm_gpiod_get_optional (drm_bridge_attach no_te_line_world.kernel).2).1 = .NULL ∧
    (exynos_dsi_host_attach command_mode_panel no_te_line_world).1 = -EINVAL ∧
    (exynos_dsi_host_attach command_mode_panel no_te_line_world).2.dsi.priv
      = no_te_line_world.dsi.priv ∧
    (exynos_dsi_host_attach command_mode_panel no_te_line_world).2.drm
      = no_te_line_world.drm ∧
    calls_between no_te_line_world.kernel
        (exynos_dsi_host_attach command_mode_panel no_te_line_world).2.kernel =
      [Call.drm_bridge_attach, Call.devm_gpiod_get_optional, Call.gpiod_to_irq .NULL,
        Call.request_threaded_irq (-EINVAL), Call.dev_err, Call.gpiod_put .NULL] := by
  decide

/-- C6 (the code at the failing inputs): when the interrupt request fails with
`-ENOMEM`, `exynos_dsi_host_attach` returns that error and releases the line, but
`te_gpio` still holds the released line, so a later detach calls `free_irq` and
`gpiod_put` on it and a later enable hook calls `enable_irq`; when the lookup of the
line fails with `-EPROBE_DEFER`, `te_gpio` is left holding the error pointer, on
which a later detach calls `gpiod_to_irq`, `free_irq` and `gpiod_put`. -/
theorem failed_attach_leaves_te_gpio_set :
    ((exynos_dsi_host_attach command_mode_panel irq_failing_world).1 = -ENOMEM ∧
      (exynos_dsi_host_attach command_mode_panel irq_failing_world).2.kernel.line_held = false ∧
      (exynos_dsi_host_attach command_mode_panel irq_failing_world).2.dsi.te_gpio = .line 7 ∧
      calls_between (exynos_dsi_host_attach command_mode_panel irq_failing_world).2.kernel
          (exynos_dsi_host_detach command_mode_panel
            (exynos_dsi_host_attach command_mode_panel irq_failing_world).2).2.kernel =
        [Call.drm_kms_helper_hotplug_event, Call.gpiod_to_irq (.line 7), Call.free_irq 42,
          Call.gpiod_put (.line 7)] ∧
      calls_between (exynos_dsi_host_attach command_mode_panel irq_failing_world).2.kernel
          (exynos_dsi_enable_irq
            (exynos_dsi_host_attach command_mode_panel irq_failing_world).2).kernel =
        [Call.gpiod_to_irq (.line 7), Call.enable_irq 42]) ∧
    ((exynos_dsi_host_attach command_mode_panel lookup_failing_world).1 = -EPROBE_DEFER ∧
      (exynos_dsi_host_attach command_mode_panel lookup_failing_world).2.dsi.te_gpio
        = .ERR_PTR (-EPROBE_DEFER) ∧
      calls_between (exynos_dsi_host_attach command_mode_panel lookup_failing_world).2.kernel
          (exynos_dsi_host_detach command_mode_panel
            (exynos_dsi_host_attach command_mode_panel lookup_failing_world).2).2.kernel =
        [Call.drm_kms_helper_hotplug_event, Call.gpiod_to_irq (.ERR_PTR (-EPROBE_DEFER)),
          Call.free_irq (-EINVAL), Call.gpiod_put (.ERR_PTR (-EPROBE_DEFER))]) := by
  decide

/-- A failing command-mode attach returns without writing the negotiated parameters
or `i80_mode`, without a hotplug notification, and with the line and handler
bookkeeping of the platform as before the call. -/
theorem host_attach_command_failure_frame (device : mipi_dsi_device) (w : World)
    (hc : device.mode_flags &&& MIPI_DSI_MODE_VIDEO = 0)
    (hf : (exynos_dsi_host_attach device w).1 ≠ 0) :
    (exynos_dsi_host_attach device w).2.dsi.priv = w.dsi.priv ∧
    (exynos_dsi_host_attach device w).2.drm = w.drm ∧
    (exynos_dsi_host_attach device w).2.kernel.line_held = w.kernel.line_held ∧
    (exynos_dsi_host_attach device w).2.kernel.irq_requested = w.kernel.irq_requested ∧
    Call.drm_kms_helper_hotplug_event ∉
      calls_between w.kernel (exynos_dsi_host_attach device w).2.kernel := by
  by_cases hr : (exynos_dsi_register_te_irq
      { w with kernel := w.kernel.record .drm_bridge_attach }).1 = 0
  · obtain ⟨id, ha⟩ :=
      register_te_irq_zero { w with kernel := w.kernel.record .drm_bridge_attach } hr
    rw [host_attach_command_success device w id hc ha] at hf
    exact absurd rfl hf
  · rw [host_attach_command_failure device w hc hr]
    obtain ⟨h1, h2, h3, h4, cs, h5, h6⟩ :=
      register_te_irq_failure_frame { w with kernel := w.kernel.record .drm_bridge_attach } hr
    refine ⟨h1, h2, h3, h4, ?_⟩
    have hlog : (exynos_dsi_register_te_irq
        { w with kernel := w.kernel.record .drm_bridge_attach }).2.kernel.log =
        w.kernel.log ++ (Call.drm_bridge_attach :: cs) := by
      simpa [Platform.record] using h5
    rw [calls_between_append _ _ _ hlog]
    simp [h6]

/-! ## Detach -/

/-- C7 (the code at the failing input): starting from a freshly probed glue,
command-mode attach with a "te" line, detach, video-mode attach (which makes no call
on the line or its interrupt), detach: the last detach calls `gpiod_to_irq`,
`free_irq` and `gpiod_put` on the line the first detach already released. -/
theorem video_detach_after_command_cycle_repeats_teardown :
    (exynos_dsi_host_attach video_mode_panel
      (exynos_dsi_host_detach command_mode_panel
        (exynos_dsi_host_attach command_mode_panel te_line_world).2).2).1 = 0 ∧
    calls_between
        (exynos_dsi_host_detach command_mode_panel
          (exynos_dsi_host_attach command_mode_panel te_line_world).2).2.kernel
        (exynos_dsi_host_attach video_mode_panel
          (exynos_dsi_host_detach command_mode_panel
            (exynos_dsi_host_attach command_mode_panel te_line_world).2).2).2.kernel =
      [Call.drm_bridge_attach, Call.mutex_lock, Call.mutex_unlock,
        Call.drm_kms_helper_hotplug_event] ∧
    calls_between
        (exynos_dsi_host_attach video_mode_panel
          (exynos_dsi_host_detach command_mode_panel
            (exynos_dsi_host_attach command_mode_panel te_line_world).2).2).2.kernel
        (exynos_dsi_host_detach video_mode_panel
          (exynos_dsi_host_attach video_mode_panel
            (exynos_dsi_host_detach command_mode_panel
              (exynos_dsi_host_attach command_mode_panel te_line_world).2).2).2).2.kernel =
      [Call.drm_kms_helper_hotplug_event, Call.gpiod_to_irq (.line 7), Call.free_irq 42,
        Call.gpiod_put (.line 7)] := by
  decide

/-! ## Interrupt enable and disable hooks -/

/-- C8 (counterexample): on a glue whose "te" interrupt is registered and armed,
disable; disable; enable leaves the line masked while disable; enable leaves it
armed, enable; enable after two disables differs from a single enable, and an enable
of the already armed line raises a warning. -/
theorem irq_hooks_redundant_calls_not_idempotent :
    armed_world.kernel.armed = true ∧
    (exynos_dsi_enable_irq (exynos_dsi_disable_irq
      (exynos_dsi_disable_irq armed_world))).kernel.armed ≠
    (exynos_dsi_enable_irq (exynos_dsi_disable_irq armed_world)).kernel.armed ∧
    (exynos_dsi_enable_irq (exynos_dsi_enable_irq
      (exynos_dsi_disable_irq (exynos_dsi_disable_irq armed_world)))).kernel.armed ≠
    (exynos_dsi_enable_irq
      (exynos_dsi_disable_irq (exynos_dsi_disable_irq armed_world))).kernel.armed ∧
    (exynos_dsi_enable_irq armed_world).kernel.warnings = armed_world.kernel.warnings + 1 := by
  decide

/-- C8 (amended): for every state, (1) with `te_gpio` null both hooks leave the
state unchanged; (2) two calls of `exynos_dsi_disable_irq` leave the armed state as
one call does; (3) two calls of `exynos_dsi_enable_irq` leave the armed state as one
call does when at most one disable is outstanding; (4) when `te_gpio` holds the "te"
line, each hook call makes exactly one `disable_irq` or `enable_irq` call on the
line's interrupt, a disable deepens the nesting by one and an enable undoes one
level, so disable; enable restores the armed state while disable; disable; enable
leaves the line masked. -/
theorem irq_hooks_nest_by_depth (w : World) :
    (w.dsi.te_gpio = .NULL → exynos_dsi_enable_irq w = w ∧ exynos_dsi_disable_irq w = w) ∧
    ((exynos_dsi_disable_irq (exynos_dsi_disable_irq w)).kernel.armed =
      (exynos_dsi_disable_irq w).kernel.armed) ∧
    (w.kernel.irq_depth ≤ 1 →
      (exynos_dsi_enable_irq (exynos_dsi_enable_irq w)).kernel.armed =
        (exynos_dsi_enable_irq w).kernel.armed) ∧
    (∀ id, w.dsi.te_gpio = .line id → w.kernel.te_line = some id → 0 ≤ w.kernel.te_irq →
      calls_between w.kernel (exynos_dsi_disable_irq w).kernel =
        [Call.gpiod_to_irq (.line id), Call.disable_irq w.kernel.te_irq] ∧
      calls_between w.kernel (exynos_dsi_enable_irq w).kernel =
        [Call.gpiod_to_irq (.line id), Call.enable_irq w.kernel.te_irq] ∧
      (exynos_dsi_disable_irq w).kernel.irq_depth = w.kernel.irq_depth + 1 ∧
      (exynos_dsi_enable_irq w).kernel.irq_depth = w.kernel.irq_depth - 1 ∧
      (exynos_dsi_enable_irq (exynos_dsi_disable_irq w)).kernel.armed = w.kernel.armed ∧
      (exynos_dsi_enable_irq (exynos_dsi_disable_irq
        (exynos_dsi_disable_irq w))).kernel.armed = false) := by
  refine ⟨?_, ?_, ?_, ?_⟩
  · intro h
    simp [exynos_dsi_enable_irq, exynos_dsi_disable_irq, h, gpio_desc_ptr.nonnull]
  · unfold exynos_dsi_disable_irq
    cases hg : w.dsi.te_gpio <;>
      simp [gpio_desc_ptr.nonnull, gpiod_to_irq, disable_irq, Platform.record, Platform.armed,
        hg, EINVAL]
    split_ifs <;> simp_all
  · intro hd
    unfold exynos_dsi_enable_irq
    cases hg : w.dsi.te_gpio with
    | NULL => simp [gpio_desc_ptr.nonnull, hg]
    | ERR_PTR e =>
      simp [gpio_desc_ptr.nonnull, gpiod_to_irq, enable_irq, Platform.record, Platform.armed,
        hg, EINVAL]
    | line id =>
      by_cases hl : w.kernel.te_line = some id
      · by_cases hi : 0 ≤ w.kernel.te_irq
        · have h01 : w.kernel.irq_depth = 0 ∨ w.kernel.irq_depth = 1 := by omega
          rcases h01 with h0 | h1
          · simp [gpio_desc_ptr.nonnull, gpiod_to_irq, enable_irq, Platform.record,
              Platform.armed, hg, hl, hi, h0]
          · simp [gpio_desc_ptr.nonnull, gpiod_to_irq, enable_irq, Platform.record,
              Platform.armed, hg, hl, hi, h1]
        · simp [gpio_desc_ptr.nonnull, gpiod_to_irq, enable_irq, Platform.record,
            Platform.armed, hg, hl, hi]
      · simp [gpio_desc_ptr.nonnull, gpiod_to_irq, enable_irq, Platform.record,
          Platform.armed, hg, hl, EINVAL]
  · intro id hg hl hi
    have hd : exynos_dsi_disable_irq w =
        { w with kernel := { w.kernel with
            irq_depth := w.kernel.irq_depth + 1,
            log := w.kernel.log ++
              [Call.gpiod_to_irq (.line id), Call.disable_irq w.kernel.te_irq] } } := by
      unfold exynos_dsi_disable_irq
      simp [hg, hl, hi, gpio_desc_ptr.nonnull, gpiod_to_irq, disable_irq, Platform.record]
    refine ⟨?_, ?_, ?_, ?_, ?_, ?_⟩
    · rw [hd]; exact calls_between_append _ _ _ rfl
    · apply calls_between_append
      unfold exynos_dsi_enable_irq
      simp only [hg, hl, hi, gpio_desc_ptr.nonnull, gpiod_to_irq, enable_irq, Platform.record]
      cases hk : w.kernel.irq_depth <;> simp [hi]
    · rw [hd]
    · unfold exynos_dsi_enable_irq
      simp only [hg, hl, hi, gpio_desc_ptr.nonnull, gpiod_to_irq, enable_irq, Platform.record]
      cases hk : w.kernel.irq_depth <;> simp [hi]
    · rw [hd]
      unfold exynos_dsi_enable_irq
      simp [hg, hl, hi, gpio_desc_ptr.nonnull, gpiod_to_irq, enable_irq, Platform.record,
        Platform.armed]
    · rw [hd]
      unfold exynos_dsi_enable_irq exynos_dsi_disable_irq
      simp [hg, hl, hi, gpio_desc_ptr.nonnull, gpiod_to_irq, enable_irq, disable_irq,
        Platform.record, Platform.armed]

/-- Witness for C8 (amended), at the armed glue: the line is bound, one disable is
undone by one enable, and two disables are not undone by one enable. -/
theorem irq_hooks_nest_by_depth_witness :
    (armed_world.dsi.te_gpio = .line 7 ∧ armed_world.kernel.te_line = some 7 ∧
      0 ≤ armed_world.kernel.te_irq ∧ armed_world.kernel.armed = true) ∧
    (exynos_dsi_enable_irq (exynos_dsi_disable_irq armed_world)).kernel.armed
      = armed_world.kernel.armed ∧
    (exynos_dsi_enable_irq (exynos_dsi_disable_irq
      (exynos_dsi_disable_irq armed_world))).kernel.armed = false :=
  ⟨by decide,
   ((irq_hooks_nest_by_depth armed_world).2.2.2 7 (by decide) (by decide)
      (by decide)).2.2.2.2.1,
   ((irq_hooks_nest_by_depth armed_world).2.2.2 7 (by decide) (by decide)
      (by decide)).2.2.2.2.2⟩

/-! ## Detach: notification order and release -/

/-- C9: for every state, `exynos_dsi_host_detach` returns 0; the calls it makes are
the hotplug notification (exactly once when `mode_config.poll_enabled` is set, not
at all otherwise) followed by the TE teardown, which is `gpiod_to_irq`, `free_irq`,
`gpiod_put` on `te_gpio` when that pointer is non-null and nothing otherwise; so
the notification comes before every teardown call. -/
theorem host_detach_notifies_before_teardown (device : mipi_dsi_device) (w : World) :
    (exynos_dsi_host_detach device w).1 = 0 ∧
    calls_between w.kernel (exynos_dsi_host_detach device w).2.kernel =
      (if w.drm.poll_enabled = true then [Call.drm_kms_helper_hotplug_event] else []) ++
      (if w.dsi.te_gpio.nonnull = true then
        [Call.gpiod_to_irq w.dsi.te_gpio, Call.free_irq (gpiod_to_irq w.dsi.te_gpio w.kernel).1,
          Call.gpiod_put w.dsi.te_gpio]
      else []) ∧
    (calls_between w.kernel (exynos_dsi_host_detach device w).2.kernel).count
        Call.drm_kms_helper_hotplug_event = (if w.drm.poll_enabled = true then 1 else 0) := by
  have hcalls : calls_between w.kernel (exynos_dsi_host_detach device w).2.kernel =
      (if w.drm.poll_enabled = true then [Call.drm_kms_helper_hotplug_event] else []) ++
      (if w.dsi.te_gpio.nonnull = true then
        [Call.gpiod_to_irq w.dsi.te_gpio, Call.free_irq (gpiod_to_irq w.dsi.te_gpio w.kernel).1,
          Call.gpiod_put w.dsi.te_gpio]
      else []) := by
    apply calls_between_append
    unfold exynos_dsi_host_detach
    simp only
    rw [unregister_te_irq_log]
    by_cases hp : w.drm.poll_enabled = true
    · simp [hp, Platform.record, gpiod_to_irq]
      cases w.dsi.te_gpio <;> simp [gpio_desc_ptr.nonnull]
      split_ifs <;> rfl
    · simp [hp]
  refine ⟨rfl, hcalls, ?_⟩
  rw [hcalls]
  by_cases hp : w.drm.poll_enabled = true <;>
    by_cases hn : w.dsi.te_gpio.nonnull = true <;> simp [hp, hn]

/-- C10: for every successful attach of a command-mode device (which then holds a
"te" line with its interrupt registered and disabled), the detach that follows
calls `free_irq` exactly once, on that line's interrupt, and `gpiod_put` exactly
once, on that line, raising no warning; afterwards the line is free and the
interrupt has no handler, and a further command-mode attach returns 0 holding the
same line with the interrupt registered and not armed. -/
theorem detach_after_command_attach_releases_te_line
    (d1 d2 d3 : mipi_dsi_device) (w : World)
    (hc1 : d1.mode_flags &&& MIPI_DSI_MODE_VIDEO = 0)
    (hok : (exynos_dsi_host_attach d1 w).1 = 0)
    (hc3 : d3.mode_flags &&& MIPI_DSI_MODE_VIDEO = 0) :
    ∃ id,
      ((exynos_dsi_host_attach d1 w).2.dsi.te_gpio = .line id ∧
        (exynos_dsi_host_attach d1 w).2.kernel.line_held = true ∧
        (exynos_dsi_host_attach d1 w).2.kernel.irq_requested = true ∧
        (exynos_dsi_host_attach d1 w).2.kernel.armed = false) ∧
      ((calls_between (exynos_dsi_host_attach d1 w).2.kernel
            (exynos_dsi_host_detach d2 (exynos_dsi_host_attach d1 w).2).2.kernel).countP
          Call.is_free_irq = 1 ∧
        (calls_between (exynos_dsi_host_attach d1 w).2.kernel
            (exynos_dsi_host_detach d2 (exynos_dsi_host_attach d1 w).2).2.kernel).count
          (Call.free_irq w.kernel.te_irq) = 1 ∧
        (calls_between (exynos_dsi_host_attach d1 w).2.kernel
            (exynos_dsi_host_detach d2 (exynos_dsi_host_attach d1 w).2).2.kernel).countP
          Call.is_gpiod_put = 1 ∧
        (calls_between (exynos_dsi_host_attach d1 w).2.kernel
            (exynos_dsi_host_detach d2 (exynos_dsi_host_attach d1 w).2).2.kernel).count
          (Call.gpiod_put (.line id)) = 1) ∧
      ((exynos_dsi_host_detach d2 (exynos_dsi_host_attach d1 w).2).2.kernel.line_held = false ∧
        (exynos_dsi_host_detach d2 (exynos_dsi_host_attach d1 w).2).2.kernel.irq_requested
          = false ∧
        (exynos_dsi_host_detach d2 (exynos_dsi_host_attach d1 w).2).2.kernel.warnings
          = w.kernel.warnings) ∧
      ((exynos_dsi_host_attach d3
          (exynos_dsi_host_detach d2 (exynos_dsi_host_attach d1 w).2).2).1 = 0 ∧
        (exynos_dsi_host_attach d3
          (exynos_dsi_host_detach d2 (exynos_dsi_host_attach d1 w).2).2).2.dsi.te_gpio
            = .line id ∧
        (exynos_dsi_host_attach d3
          (exynos_dsi_host_detach d2 (exynos_dsi_host_attach d1 w).2).2).2.kernel.line_held
            = true ∧
        (exynos_dsi_host_attach d3
          (exynos_dsi_host_detach d2 (exynos_dsi_host_attach d1 w).2).2).2.kernel.irq_requested
            = true ∧
        (exynos_dsi_host_attach d3
          (exynos_dsi_host_detach d2 (exynos_dsi_host_attach d1 w).2).2).2.kernel.armed
            = false) := by
  obtain ⟨id, ha⟩ := host_attach_command_zero d1 w hc1 hok
  have ha0 := ha
  obtain ⟨h1, h2, h3, h4, h5, h6⟩ := ha0
  refine ⟨id, ?_⟩
  rw [host_attach_command_success d1 w id hc1 ha]
  simp only
  rw [host_detach_bound_line d2 (command_attached d1 w id) id rfl h2 h4 rfl rfl]
  simp only
  rw [host_attach_command_success d3 (line_detached (command_attached d1 w id) id) id hc3
    ⟨h1, h2, rfl, h4, h5, rfl⟩]
  refine ⟨⟨rfl, rfl, rfl, rfl⟩, ⟨?_, ?_, ?_, ?_⟩, ⟨rfl, rfl, rfl⟩, ⟨rfl, rfl, rfl, rfl, rfl⟩⟩ <;>
    (rw [calls_between_append _ _ _ rfl]
     by_cases hp : w.drm.poll_enabled = true <;>
      simp [hp, command_attached, Call.is_free_irq, Call.is_gpiod_put, List.count,
        List.countP_cons])

/-- Witness for C10: a command-mode panel on a freshly probed glue whose "te" line
is descriptor 7; attach, detach, attach. -/
theorem detach_after_command_attach_releases_te_line_witness :
    ∃ id,
      ((exynos_dsi_host_attach command_mode_panel
          te_line_world).2.dsi.te_gpio = .line id ∧
        (exynos_dsi_host_attach command_mode_panel
          te_line_world).2.kernel.line_held = true ∧
        (exynos_dsi_host_attach command_mode_panel
          te_line_world).2.kernel.irq_requested = true ∧
        (exynos_dsi_host_attach command_mode_panel
          te_line_world).2.kernel.armed = false) ∧
      (exynos_dsi_host_attach command_mode_panel
        (exynos_dsi_host_detach command_mode_panel
          (exynos_dsi_host_attach command_mode_panel
            te_line_world).2).2).1 = 0 :=
  (detach_after_command_attach_releases_te_line command_mode_panel command_mode_panel
    command_mode_panel te_line_world
    (by decide) (by decide) (by decide)).imp
    (fun _ h => ⟨h.1, h.2.2.2.1⟩)

end ExynosDsi
